import Mathlib

/-!
Verification of the event-propagation layer of the task-tracking
application (`tasks` app): the signal handlers in `tasks/signals.py`,
the model helpers and the deadline validator in `tasks/models.py`, and
the dashboard aggregation counts in `tasks/views.py`, shallowly embedded
over an explicit entity store.

Workers are identified by their primary key (`Nat`); a `Store` holds the
persisted rows the propagation engine reads and writes.  Django's
`Model.objects.create` is modelled as appending the new row to the
corresponding list; `Worker.objects.get(pk=...)` is a fallible lookup.
-/

namespace TM

/-- A Worker row: primary key plus the name fields used by
`get_full_name` in the handler messages. -/
structure Worker where
  id : Nat
  first_name : String
  last_name : String
deriving DecidableEq, Repr

/-- Django's `AbstractUser.get_full_name`: first and last name joined by
a space (the handlers only ever call it on workers with both set). -/
def get_full_name (w : Worker) : String :=
  w.first_name ++ " " ++ w.last_name

/-- A Task row, restricted to the fields the propagation engine and the
dashboard touch.  `assignees` is the many-to-many set of worker ids,
`created_by` the nullable creator id, `deadline` a date ordinal. -/
structure Task where
  id : Nat
  name : String
  is_completed : Bool
  assignees : List Nat
  created_by : Option Nat
  deadline : Int
deriving DecidableEq, Repr

/-- A Comment row: the owning task (as the related object the handler
dereferences) and the author. -/
structure Comment where
  id : Nat
  task : Task
  author : Worker
deriving DecidableEq, Repr

/-- An ActivityLog row: nullable task reference, nullable user
reference, activity type string and description. -/
structure ActivityLog where
  task : Option Nat
  user : Option Nat
  activity_type : String
  description : String
deriving DecidableEq, Repr

/-- A Notification row.  `is_read` defaults to `false` on creation and
the handlers never pass it. -/
structure Notification where
  recipient : Nat
  notification_type : String
  title : String
  message : String
  task : Option Nat
  is_read : Bool
deriving DecidableEq, Repr

/-- The entity store: the persisted rows visible to the propagation
engine.  ActivityLog and Notification rows are append-only here, matching
`objects.create`. -/
structure Store where
  tasks : List Task
  workers : List Worker
  activity_logs : List ActivityLog
  notifications : List Notification
deriving Repr

/-- Lookup `Worker.objects.get(pk=pk)`: the worker row with the given primary
key, or `none` when it raises `DoesNotExist`. -/
def find_worker (store : Store) (pk : Nat) : Option Worker :=
  store.workers.find? (fun w => w.id == pk)

/-- The ActivityLog row created by `task_post_save` on `created=True`. -/
def created_log (inst : Task) : ActivityLog :=
  { task := some inst.id
    user := inst.created_by
    activity_type := "created"
    description := "Завдання \"" ++ inst.name ++ "\" створено" }

/-- The ActivityLog row created by `task_post_save` on an update with
`is_completed` true (user left `None`). -/
def completed_log (inst : Task) : ActivityLog :=
  { task := some inst.id
    user := none
    activity_type := "completed"
    description := "Завдання \"" ++ inst.name ++ "\" виконано" }

/-- Handler `task_post_save` from `tasks/signals.py`: on creation append
one `created` log; on update append one `completed` log whenever the
saved state has `is_completed` true, otherwise do nothing. -/
def task_post_save (store : Store) (inst : Task) (created : Bool) : Store :=
  if created then
    { store with activity_logs := store.activity_logs ++ [created_log inst] }
  else
    if inst.is_completed then
      { store with activity_logs := store.activity_logs ++ [completed_log inst] }
    else
      store

/-- The Notification row created per added assignee by
`task_assignees_changed` on `post_add`. -/
def assigned_notification (inst : Task) (worker : Worker) : Notification :=
  { recipient := worker.id
    notification_type := "task_assigned"
    title := "Нове завдання"
    message := "Вам призначено завдання: " ++ inst.name
    task := some inst.id
    is_read := false }

/-- The ActivityLog row created per added assignee by
`task_assignees_changed` on `post_add`. -/
def assigned_log (inst : Task) (worker : Worker) : ActivityLog :=
  { task := some inst.id
    user := some worker.id
    activity_type := "assigned"
    description := get_full_name worker ++ " призначено до завдання" }

/-- The ActivityLog row created per removed assignee by
`task_assignees_changed` on `post_remove`. -/
def unassigned_log (inst : Task) (worker : Worker) : ActivityLog :=
  { task := some inst.id
    user := some worker.id
    activity_type := "unassigned"
    description := get_full_name worker ++ " знято з завдання" }

/-- The `post_add` loop of `task_assignees_changed`: for each id in
`pk_set`, look the worker up and create one notification and one log.
A failed lookup (`Worker.DoesNotExist`) aborts the loop, returning the
store with the rows already created and the offending id; rows are
persisted one by one, so earlier iterations are not rolled back. -/
def process_post_add (store : Store) (inst : Task) :
    List Nat → Store × Option Nat
  | [] => (store, none)
  | pk :: rest =>
    match find_worker store pk with
    | none => (store, some pk)
    | some worker =>
      process_post_add
        { store with
          notifications := store.notifications ++ [assigned_notification inst worker]
          activity_logs := store.activity_logs ++ [assigned_log inst worker] }
        inst rest

/-- The `post_remove` loop of `task_assignees_changed`: for each id in
`pk_set`, look the worker up and create one `unassigned` log; no
notification.  Failure semantics as in `process_post_add`. -/
def process_post_remove (store : Store) (inst : Task) :
    List Nat → Store × Option Nat
  | [] => (store, none)
  | pk :: rest =>
    match find_worker store pk with
    | none => (store, some pk)
    | some worker =>
      process_post_remove
        { store with
          activity_logs := store.activity_logs ++ [unassigned_log inst worker] }
        inst rest

/-- Handler `task_assignees_changed` from `tasks/signals.py`, dispatched
on the m2m action string. -/
def task_assignees_changed (store : Store) (inst : Task) (action : String)
    (pk_set : List Nat) : Store × Option Nat :=
  if action == "post_add" then
    process_post_add store inst pk_set
  else
    if action == "post_remove" then
      process_post_remove store inst pk_set
    else
      (store, none)

/-- The ActivityLog row created by `comment_post_save`. -/
def commented_log (inst : Comment) : ActivityLog :=
  { task := some inst.task.id
    user := some inst.author.id
    activity_type := "commented"
    description := get_full_name inst.author ++ " додав коментар" }

/-- The per-assignee Notification row created by `comment_post_save`
(`прокоментував завдання` phrasing). -/
def comment_notification (inst : Comment) (recipient : Nat) : Notification :=
  { recipient := recipient
    notification_type := "task_commented"
    title := "Новий коментар"
    message := get_full_name inst.author ++ " прокоментував завдання: " ++ inst.task.name
    task := some inst.task.id
    is_read := false }

/-- The creator-special-case Notification row created by
`comment_post_save` (`прокоментував ваше завдання` phrasing). -/
def creator_notification (inst : Comment) (creator : Nat) : Notification :=
  { recipient := creator
    notification_type := "task_commented"
    title := "Новий коментар"
    message := get_full_name inst.author ++ " прокоментував ваше завдання: " ++ inst.task.name
    task := some inst.task.id
    is_read := false }

/-- Handler `comment_post_save` from `tasks/signals.py`: on creation,
one `commented` log; one notification per assignee other than the
author; and, when the task creator is set, differs from the author and
is not an assignee, one additional notification to the creator. -/
def comment_post_save (store : Store) (inst : Comment) (created : Bool) : Store :=
  if created then
    let s1 := { store with
      activity_logs := store.activity_logs ++ [commented_log inst] }
    let recipients := inst.task.assignees.filter (fun pk => pk != inst.author.id)
    let s2 := { s1 with
      notifications := s1.notifications ++ recipients.map (comment_notification inst) }
    match inst.task.created_by with
    | none => s2
    | some creator =>
      if creator ≠ inst.author.id ∧ creator ∉ inst.task.assignees then
        { s2 with
          notifications := s2.notifications ++ [creator_notification inst creator] }
      else
        s2
  else
    store

/-- Validator `validate_deadline` from `tasks/models.py`: raise `ValidationError`
when the value is before today's date. -/
def validate_deadline (value : Int) (today : Int) : Except String Unit :=
  if value < today then
    Except.error "Deadline cannot be in the past"
  else
    Except.ok ()

/-- Persist a new Task row into the store (the Entity Store `persist`
step, before the post-save signal fires). -/
def persist_task (store : Store) (inst : Task) : Store :=
  { store with tasks := store.tasks ++ [inst] }

/-- Task creation through validation: run `validate_deadline` on the
task's deadline; on failure reject before persisting (no row, no event,
no derived records); on success persist and emit `post_save` with
`created=True`. -/
def create_task_validated (store : Store) (inst : Task) (today : Int) :
    Except String Store :=
  match validate_deadline inst.deadline today with
  | Except.error e => Except.error e
  | Except.ok _ => Except.ok (task_post_save (persist_task store inst) inst true)

/-- Persist an update of an existing Task row (replace by primary key),
before the post-save signal fires. -/
def save_task (store : Store) (inst : Task) : Store :=
  { store with tasks := store.tasks.map (fun t => if t.id == inst.id then inst else t) }

/-- Method `Task.mark_as_incomplete` from `tasks/models.py`: set
`is_completed = False` and save, which emits `post_save` with
`created=False`. -/
def mark_as_incomplete (store : Store) (inst : Task) : Store :=
  let updated := { inst with is_completed := false }
  task_post_save (save_task store updated) updated false

/-- The m2m `add` operation on `Task.assignees`: the Entity Store
mutates the relationship first, then the `post_add` signal runs the
handler loop on the updated state.  The relationship write is not rolled
back when the handler fails. -/
def add_assignees (store : Store) (inst : Task) (pk_set : List Nat) :
    Store × Option Nat :=
  let updated := { inst with assignees := inst.assignees ++ pk_set }
  let store1 := { store with
    tasks := store.tasks.map (fun t => if t.id == inst.id then updated else t) }
  task_assignees_changed store1 updated "post_add" pk_set

/-- Helper `Worker.get_unread_notifications_count` from `tasks/models.py`:
`self.notifications.filter(is_read=False).count()`, where
`self.notifications` is the reverse relation on `recipient`. -/
def get_unread_notifications_count (store : Store) (worker : Worker) : Nat :=
  (store.notifications.filter
    (fun n => n.recipient == worker.id && n.is_read == false)).length

/-- Count `total_tasks` from the `dashboard` view: `Task.objects.count()`. -/
def total_tasks (store : Store) : Nat :=
  store.tasks.length

/-- Count `completed_tasks` from the `dashboard` view:
`Task.objects.filter(is_completed=True).count()`. -/
def completed_tasks (store : Store) : Nat :=
  (store.tasks.filter (fun t => t.is_completed == true)).length

/-- Count `incomplete_tasks` from the `dashboard` view:
`Task.objects.filter(is_completed=False).count()`. -/
def incomplete_tasks (store : Store) : Nat :=
  (store.tasks.filter (fun t => t.is_completed == false)).length

/-- Claim C4: every first persist (creation) of a Task produces exactly
one ActivityLog with activity type `created`, user equal to the task's
`created_by` and a description containing the task's name, and no
Notification. -/
theorem task_creation_one_created_log (store : Store) (inst : Task) :
    (task_post_save store inst true).activity_logs =
      store.activity_logs ++ [created_log inst] ∧
    (task_post_save store inst true).notifications = store.notifications ∧
    (created_log inst).activity_type = "created" ∧
    (created_log inst).user = inst.created_by ∧
    (created_log inst).description =
      "Завдання \"" ++ inst.name ++ "\" створено" := by
  exact ⟨rfl, rfl, rfl, rfl, rfl⟩

/-- Claim C10: the dashboard's headline counts always satisfy
`total_tasks = completed_tasks + incomplete_tasks`. -/
theorem dashboard_counts_partition (store : Store) :
    total_tasks store = completed_tasks store + incomplete_tasks store := by
  unfold total_tasks completed_tasks incomplete_tasks
  induction store.tasks with
  | nil => rfl
  | cons t rest ih =>
    cases h : t.is_completed <;>
      simp [List.filter_cons, h, ih] <;> omega

/-- The creator-special-case block of `comment_post_save`: the list of
extra notifications it creates (one or none). -/
def creator_extra (c : Comment) : List Notification :=
  match c.task.created_by with
  | none => []
  | some creator =>
    if creator ≠ c.author.id ∧ creator ∉ c.task.assignees
    then [creator_notification c creator] else []

/-- The list `creator_extra` is empty when the task has no creator. -/
theorem creator_extra_none (c : Comment) (h : c.task.created_by = none) :
    creator_extra c = [] := by
  simp [creator_extra, h]

/-- The list `creator_extra` is the single creator notification when the creator
is set, differs from the author and is not an assignee. -/
theorem creator_extra_pos (c : Comment) (creator : Nat)
    (h : c.task.created_by = some creator)
    (hc : creator ≠ c.author.id ∧ creator ∉ c.task.assignees) :
    creator_extra c = [creator_notification c creator] := by
  simp [creator_extra, h, hc.1, hc.2]

/-- The list `creator_extra` is empty when the creator is the author or already
an assignee. -/
theorem creator_extra_neg (c : Comment) (creator : Nat)
    (h : c.task.created_by = some creator)
    (hc : ¬(creator ≠ c.author.id ∧ creator ∉ c.task.assignees)) :
    creator_extra c = [] := by
  simp only [creator_extra, h]
  rw [if_neg hc]

/-- Unrolling of `comment_post_save` on creation: one `commented` log,
one notification per assignee other than the author, and the
creator-special-case notifications of `creator_extra`. -/
theorem comment_post_save_unfold (store : Store) (c : Comment) :
    (comment_post_save store c true).activity_logs =
      store.activity_logs ++ [commented_log c] ∧
    (comment_post_save store c true).notifications =
      store.notifications ++
        (c.task.assignees.filter (fun pk => pk != c.author.id)).map
          (comment_notification c) ++
        creator_extra c := by
  unfold comment_post_save creator_extra
  cases hcb : c.task.created_by with
  | none => simp
  | some creator =>
    by_cases hc : creator ≠ c.author.id ∧ creator ∉ c.task.assignees
    · simp [hc]
    · simp [hc]

/-- The ordinary comment notification and the creator-special-case one
never carry the same message: the phrasings differ. -/
theorem comment_messages_distinct (c : Comment) (pk q : Nat) :
    (comment_notification c pk).message ≠ (creator_notification c q).message := by
  intro h
  have hlen := congrArg String.length h
  simp only [comment_notification, creator_notification,
    String.length_append] at hlen
  have hne : (" прокоментував завдання: " : String).length ≠
      (" прокоментував ваше завдання: " : String).length := by decide
  omega

/-- A sample worker used to instantiate theorems on concrete data. -/
def sample_worker1 : Worker :=
  { id := 1, first_name := "Ada", last_name := "Lovelace" }

/-- A second sample worker. -/
def sample_worker2 : Worker :=
  { id := 2, first_name := "Alan", last_name := "Turing" }

/-- A sample task assigned to worker 1 and created by worker 2. -/
def sample_task : Task :=
  { id := 10, name := "t", is_completed := false, assignees := [1]
    created_by := some 2, deadline := 5 }

/-- A sample store holding the two sample workers and the sample task. -/
def sample_store : Store :=
  { tasks := [sample_task], workers := [sample_worker1, sample_worker2]
    activity_logs := [], notifications := [] }

/-- A concrete worker-lookup function used to instantiate the m2m
theorems on the sample store. -/
def sample_wf : Nat → Worker :=
  fun pk => if pk = 1 then sample_worker1 else sample_worker2

/-- A successful `Worker.objects.get(pk=pk)` returns the row whose
primary key is `pk`. -/
theorem find_worker_id (store : Store) (pk : Nat) (w : Worker)
    (h : find_worker store pk = some w) : w.id = pk := by
  unfold find_worker at h
  have := List.find?_some h
  simpa using this

/-- Counting helper: over a duplicate-free id list, a predicate that
matches ids through a function that is the identity on the list counts
each id at most once. -/
theorem countP_map_nodup (l : List Nat) (hnd : l.Nodup) (g : Nat → Nat)
    (hg : ∀ pk ∈ l, g pk = pk) (w : Nat) :
    l.countP (fun pk => g pk == w) = if w ∈ l then 1 else 0 := by
  have h1 : l.countP (fun pk => g pk == w) = l.countP (fun pk => pk == w) := by
    apply List.countP_congr
    intro pk hpk
    simp [hg pk hpk]
  have h2 : l.countP (fun pk => pk == w) = l.count w := rfl
  rw [h1, h2]
  by_cases hw : w ∈ l
  · simp [hw, List.count_eq_one_of_mem hnd hw]
  · simp [hw, List.count_eq_zero_of_not_mem hw]

/-- Unrolling of the `post_add` loop when every id resolves: one
notification and one log are appended per id, in order, and no error is
reported. -/
theorem process_post_add_spec (inst : Task) (wf : Nat → Worker) (l : List Nat) :
    ∀ store : Store, (∀ pk ∈ l, find_worker store pk = some (wf pk)) →
      process_post_add store inst l =
        ({ store with
           notifications := store.notifications ++
             l.map (fun pk => assigned_notification inst (wf pk))
           activity_logs := store.activity_logs ++
             l.map (fun pk => assigned_log inst (wf pk)) }, none) := by
  induction l with
  | nil => intro store _; simp [process_post_add]
  | cons pk rest ih =>
    intro store h
    have hpk : find_worker store pk = some (wf pk) := h pk (by simp)
    simp only [process_post_add, hpk]
    rw [ih { store with
        notifications := store.notifications ++ [assigned_notification inst (wf pk)]
        activity_logs := store.activity_logs ++ [assigned_log inst (wf pk)] }
      (fun q hq => h q (by simp [hq]))]
    simp

/-- Unrolling of the `post_remove` loop when every id resolves: one
`unassigned` log per id, no notifications, no error. -/
theorem process_post_remove_spec (inst : Task) (wf : Nat → Worker) (l : List Nat) :
    ∀ store : Store, (∀ pk ∈ l, find_worker store pk = some (wf pk)) →
      process_post_remove store inst l =
        ({ store with
           activity_logs := store.activity_logs ++
             l.map (fun pk => unassigned_log inst (wf pk)) }, none) := by
  induction l with
  | nil => intro store _; simp [process_post_remove]
  | cons pk rest ih =>
    intro store h
    have hpk : find_worker store pk = some (wf pk) := h pk (by simp)
    simp only [process_post_remove, hpk]
    rw [ih { store with
        activity_logs := store.activity_logs ++ [unassigned_log inst (wf pk)] }
      (fun q hq => h q (by simp [hq]))]
    simp

/-- Unrolling of the `post_add` loop when a lookup fails partway: the
rows for the ids processed before the failure stay in the store, the
failing id is reported, and the remaining ids produce nothing. -/
theorem process_post_add_fail (inst : Task) (wf : Nat → Worker) (bad : Nat)
    (rest : List Nat) (done : List Nat) :
    ∀ store : Store, (∀ pk ∈ done, find_worker store pk = some (wf pk)) →
      find_worker store bad = none →
      process_post_add store inst (done ++ bad :: rest) =
        ({ store with
           notifications := store.notifications ++
             done.map (fun pk => assigned_notification inst (wf pk))
           activity_logs := store.activity_logs ++
             done.map (fun pk => assigned_log inst (wf pk)) }, some bad) := by
  induction done with
  | nil => intro store _ hbad; simp [process_post_add, hbad]
  | cons pk ds ih =>
    intro store h hbad
    have hpk : find_worker store pk = some (wf pk) := h pk (by simp)
    simp only [List.cons_append, List.append_eq, process_post_add, hpk]
    rw [ih { store with
        notifications := store.notifications ++ [assigned_notification inst (wf pk)]
        activity_logs := store.activity_logs ++ [assigned_log inst (wf pk)] }
      (fun q hq => h q (by simp [hq])) hbad]
    simp

/-- Claim C2: adding workers `pk_set` to a task's assignees in one
`post_add` event creates exactly one `task_assigned` notification and
one `assigned` log per added worker and nothing else: the new rows are
exactly one pair per id, and for every worker the count of matching
rows is one when the worker was added and zero otherwise. -/
theorem assignee_add_one_pair_each (store : Store) (inst : Task)
    (pk_set : List Nat) (wf : Nat → Worker)
    (hfind : ∀ pk ∈ pk_set, find_worker store pk = some (wf pk))
    (hnd : pk_set.Nodup) :
    ∃ s', task_assignees_changed store inst "post_add" pk_set = (s', none) ∧
      s'.notifications = store.notifications ++
        pk_set.map (fun pk => assigned_notification inst (wf pk)) ∧
      s'.activity_logs = store.activity_logs ++
        pk_set.map (fun pk => assigned_log inst (wf pk)) ∧
      s'.tasks = store.tasks ∧
      (∀ w, ((pk_set.map (fun pk => assigned_notification inst (wf pk))).filter
          (fun n => n.recipient == w && n.notification_type == "task_assigned"
            && n.task == some inst.id)).length = if w ∈ pk_set then 1 else 0) ∧
      (∀ w, ((pk_set.map (fun pk => assigned_log inst (wf pk))).filter
          (fun g => g.user == some w && g.activity_type == "assigned"
            && g.task == some inst.id)).length = if w ∈ pk_set then 1 else 0) := by
  have hid : ∀ pk ∈ pk_set, (wf pk).id = pk :=
    fun pk hpk => find_worker_id store pk (wf pk) (hfind pk hpk)
  refine ⟨{ store with
      notifications := store.notifications ++
        pk_set.map (fun pk => assigned_notification inst (wf pk))
      activity_logs := store.activity_logs ++
        pk_set.map (fun pk => assigned_log inst (wf pk)) },
    ?_, rfl, rfl, rfl, ?_, ?_⟩
  · simpa [task_assignees_changed] using
      process_post_add_spec inst wf pk_set store hfind
  · intro w
    rw [List.filter_map, List.length_map, ← List.countP_eq_length_filter]
    have h1 : pk_set.countP
        ((fun n => n.recipient == w && n.notification_type == "task_assigned"
          && n.task == some inst.id) ∘ (fun pk => assigned_notification inst (wf pk)))
        = pk_set.countP (fun pk => (wf pk).id == w) := by
      apply List.countP_congr
      intro pk hpk
      simp [Function.comp, assigned_notification]
    rw [h1, countP_map_nodup pk_set hnd (fun pk => (wf pk).id) hid w]
  · intro w
    rw [List.filter_map, List.length_map, ← List.countP_eq_length_filter]
    have h1 : pk_set.countP
        ((fun g => g.user == some w && g.activity_type == "assigned"
          && g.task == some inst.id) ∘ (fun pk => assigned_log inst (wf pk)))
        = pk_set.countP (fun pk => (wf pk).id == w) := by
      apply List.countP_congr
      intro pk hpk
      simp [Function.comp, assigned_log]
    rw [h1, countP_map_nodup pk_set hnd (fun pk => (wf pk).id) hid w]

/-- Witness for C2: adding workers 1 and 2 to the sample task creates
exactly two notification/log pairs, one per worker. -/
theorem assignee_add_one_pair_each_witness :
    ∃ s', task_assignees_changed sample_store sample_task "post_add" [1, 2]
        = (s', none) ∧
      s'.notifications = sample_store.notifications ++
        [1, 2].map (fun pk => assigned_notification sample_task (sample_wf pk)) ∧
      s'.activity_logs = sample_store.activity_logs ++
        [1, 2].map (fun pk => assigned_log sample_task (sample_wf pk)) ∧
      s'.tasks = sample_store.tasks ∧
      (∀ w, (([1, 2].map (fun pk => assigned_notification sample_task (sample_wf pk))).filter
          (fun n => n.recipient == w && n.notification_type == "task_assigned"
            && n.task == some sample_task.id)).length = if w ∈ [1, 2] then 1 else 0) ∧
      (∀ w, (([1, 2].map (fun pk => assigned_log sample_task (sample_wf pk))).filter
          (fun g => g.user == some w && g.activity_type == "assigned"
            && g.task == some sample_task.id)).length = if w ∈ [1, 2] then 1 else 0) := by
  exact assignee_add_one_pair_each sample_store sample_task [1, 2] sample_wf
    (by intro pk hpk; fin_cases hpk <;> decide) (by decide)

/-- Claim C5: removing workers `pk_set` from a task's assignees creates
exactly one `unassigned` log per removed worker and no notification of
any type. -/
theorem assignee_remove_one_log_no_notification (store : Store) (inst : Task)
    (pk_set : List Nat) (wf : Nat → Worker)
    (hfind : ∀ pk ∈ pk_set, find_worker store pk = some (wf pk))
    (hnd : pk_set.Nodup) :
    ∃ s', task_assignees_changed store inst "post_remove" pk_set = (s', none) ∧
      s'.notifications = store.notifications ∧
      s'.activity_logs = store.activity_logs ++
        pk_set.map (fun pk => unassigned_log inst (wf pk)) ∧
      s'.tasks = store.tasks ∧
      (∀ w, ((pk_set.map (fun pk => unassigned_log inst (wf pk))).filter
          (fun g => g.user == some w && g.activity_type == "unassigned"
            && g.task == some inst.id)).length = if w ∈ pk_set then 1 else 0) := by
  have hid : ∀ pk ∈ pk_set, (wf pk).id = pk :=
    fun pk hpk => find_worker_id store pk (wf pk) (hfind pk hpk)
  have hne : (("post_remove" : String) == "post_add") = false := by decide
  refine ⟨{ store with
      activity_logs := store.activity_logs ++
        pk_set.map (fun pk => unassigned_log inst (wf pk)) },
    ?_, rfl, rfl, rfl, ?_⟩
  · simpa [task_assignees_changed, hne] using
      process_post_remove_spec inst wf pk_set store hfind
  · intro w
    rw [List.filter_map, List.length_map, ← List.countP_eq_length_filter]
    have h1 : pk_set.countP
        ((fun g => g.user == some w && g.activity_type == "unassigned"
          && g.task == some inst.id) ∘ (fun pk => unassigned_log inst (wf pk)))
        = pk_set.countP (fun pk => (wf pk).id == w) := by
      apply List.countP_congr
      intro pk hpk
      simp [Function.comp, unassigned_log]
    rw [h1, countP_map_nodup pk_set hnd (fun pk => (wf pk).id) hid w]

/-- Witness for C5: removing workers 1 and 2 from the sample task
creates exactly two `unassigned` logs and no notification. -/
theorem assignee_remove_one_log_no_notification_witness :
    ∃ s', task_assignees_changed sample_store sample_task "post_remove" [1, 2]
        = (s', none) ∧
      s'.notifications = sample_store.notifications ∧
      s'.activity_logs = sample_store.activity_logs ++
        [1, 2].map (fun pk => unassigned_log sample_task (sample_wf pk)) ∧
      s'.tasks = sample_store.tasks ∧
      (∀ w, (([1, 2].map (fun pk => unassigned_log sample_task (sample_wf pk))).filter
          (fun g => g.user == some w && g.activity_type == "unassigned"
            && g.task == some sample_task.id)).length = if w ∈ [1, 2] then 1 else 0) := by
  exact assignee_remove_one_log_no_notification sample_store sample_task [1, 2]
    sample_wf (by intro pk hpk; fin_cases hpk <;> decide) (by decide)

/-- Claim C6: when the assignee-added handler fails partway (the worker
lookup fails on id `bad` after the ids in `done` were processed), the
notification/log pairs already created for `done` remain in the store,
the unprocessed ids in `rest` get no derived rows, the failing id is
reported to the caller, and the assignee-set mutation itself is kept
(not rolled back). -/
theorem assignee_add_failure_keeps_earlier_records (store : Store) (inst : Task)
    (done rest : List Nat) (bad : Nat) (wf : Nat → Worker)
    (hfind : ∀ pk ∈ done, find_worker store pk = some (wf pk))
    (hbad : find_worker store bad = none) :
    ∃ s', add_assignees store inst (done ++ bad :: rest) = (s', some bad) ∧
      s'.notifications = store.notifications ++
        done.map (fun pk => assigned_notification inst (wf pk)) ∧
      s'.activity_logs = store.activity_logs ++
        done.map (fun pk => assigned_log inst (wf pk)) ∧
      s'.tasks = store.tasks.map (fun t => if t.id == inst.id
        then { inst with assignees := inst.assignees ++ (done ++ bad :: rest) }
        else t) := by
  have key := process_post_add_fail
    { inst with assignees := inst.assignees ++ (done ++ bad :: rest) }
    wf bad rest done
    { store with
      tasks := store.tasks.map (fun t => if t.id == inst.id
        then { inst with assignees := inst.assignees ++ (done ++ bad :: rest) }
        else t) }
    hfind hbad
  refine ⟨{ store with
      tasks := store.tasks.map (fun t => if t.id == inst.id
        then { inst with assignees := inst.assignees ++ (done ++ bad :: rest) }
        else t)
      notifications := store.notifications ++
        done.map (fun pk => assigned_notification
          { inst with assignees := inst.assignees ++ (done ++ bad :: rest) } (wf pk))
      activity_logs := store.activity_logs ++
        done.map (fun pk => assigned_log
          { inst with assignees := inst.assignees ++ (done ++ bad :: rest) } (wf pk)) },
    ?_, rfl, rfl, rfl⟩
  show task_assignees_changed _ _ "post_add" _ = _
  simpa [task_assignees_changed] using key

/-- Witness for C6: adding ids 1, 3, 2 where id 3 has no worker row
keeps worker 1's pair, creates nothing for worker 2, reports id 3 and
keeps the mutated assignee set. -/
theorem assignee_add_failure_keeps_earlier_records_witness :
    ∃ s', add_assignees sample_store sample_task ([1] ++ 3 :: [2])
        = (s', some 3) ∧
      s'.notifications = sample_store.notifications ++
        [1].map (fun pk => assigned_notification sample_task (sample_wf pk)) ∧
      s'.activity_logs = sample_store.activity_logs ++
        [1].map (fun pk => assigned_log sample_task (sample_wf pk)) ∧
      s'.tasks = sample_store.tasks.map (fun t => if t.id == sample_task.id
        then { sample_task with
          assignees := sample_task.assignees ++ ([1] ++ 3 :: [2]) }
        else t) := by
  exact assignee_add_failure_keeps_earlier_records sample_store sample_task
    [1] [2] 3 sample_wf (by intro pk hpk; fin_cases hpk; decide) (by decide)

/-- Claim C3: a non-creating save of a Task whose state has
`is_completed = true` appends exactly one `completed` ActivityLog with
user `None` and a description referencing the task's name, no
Notification, regardless of whether the flag actually transitioned on
that save; saving again appends another such log. -/
theorem completed_save_appends_one_log (store : Store) (inst : Task)
    (h : inst.is_completed = true) :
    (task_post_save store inst false).activity_logs =
      store.activity_logs ++ [completed_log inst] ∧
    (task_post_save store inst false).notifications = store.notifications ∧
    (completed_log inst).activity_type = "completed" ∧
    (completed_log inst).user = none ∧
    (completed_log inst).description =
      "Завдання \"" ++ inst.name ++ "\" виконано" ∧
    (task_post_save (task_post_save store inst false) inst false).activity_logs =
      store.activity_logs ++ [completed_log inst, completed_log inst] := by
  simp [task_post_save, h]
  exact ⟨rfl, rfl, rfl⟩

/-- Witness for C3 at a concrete completed task and empty store. -/
theorem completed_save_appends_one_log_witness :
    (task_post_save sample_store { sample_task with is_completed := true }
        false).activity_logs =
      sample_store.activity_logs ++
        [completed_log { sample_task with is_completed := true }] := by
  exact (completed_save_appends_one_log sample_store
    { sample_task with is_completed := true } rfl).1

/-- Claim C9: a non-creating save of a Task whose state has
`is_completed = false` (in particular `mark_as_incomplete`, reopening)
creates no ActivityLog and no Notification: no handler emits
`reopened`. -/
theorem incomplete_save_creates_nothing (store : Store) (inst : Task)
    (h : inst.is_completed = false) :
    task_post_save store inst false = store ∧
    (mark_as_incomplete store inst).activity_logs = store.activity_logs ∧
    (mark_as_incomplete store inst).notifications = store.notifications := by
  refine ⟨?_, ?_, ?_⟩ <;> simp [task_post_save, mark_as_incomplete, save_task, h]

/-- Witness for C9 at a concrete incomplete task. -/
theorem incomplete_save_creates_nothing_witness :
    task_post_save sample_store sample_task false = sample_store := by
  exact (incomplete_save_creates_nothing sample_store sample_task rfl).1

/-- Claim C7: deadline validation rejects exactly the dates strictly
before today (today itself is accepted), and a rejected validation
yields an error with no resulting store: nothing is persisted and no
derived record exists. -/
theorem deadline_validation_exact (store : Store) (inst : Task) (today : Int) :
    (∀ v : Int, validate_deadline v today = Except.ok () ↔ ¬ v < today) ∧
    (validate_deadline today today = Except.ok ()) ∧
    (inst.deadline < today →
      create_task_validated store inst today =
        Except.error "Deadline cannot be in the past") ∧
    (¬ inst.deadline < today →
      create_task_validated store inst today =
        Except.ok (task_post_save (persist_task store inst) inst true)) := by
  refine ⟨fun v => ?_, ?_, fun h => ?_, fun h => ?_⟩
  · unfold validate_deadline
    split <;> simp_all
  · simp [validate_deadline]
  · simp [create_task_validated, validate_deadline, h]
  · simp [create_task_validated, validate_deadline, h]

/-- Witness for C7: a deadline equal to today is accepted and the task
is persisted with its creation log. -/
theorem deadline_validation_exact_witness :
    create_task_validated sample_store sample_task 5 =
      Except.ok (task_post_save (persist_task sample_store sample_task)
        sample_task true) := by
  exact (deadline_validation_exact sample_store sample_task 5).2.2.2 (by decide)

/-- Claim C8: `get_unread_notifications_count` returns exactly the
number of Notification rows whose recipient is the worker and whose
`is_read` flag is false; being a function of the store it mutates
nothing. -/
theorem unread_count_exact (store : Store) (w : Worker) :
    get_unread_notifications_count store w =
      store.notifications.countP
        (fun n => decide (n.recipient = w.id ∧ n.is_read = false)) := by
  unfold get_unread_notifications_count
  rw [← List.countP_eq_length_filter]
  apply List.countP_congr
  intro n _
  simp

/-- A sample comment by worker 1 (an assignee) on the sample task. -/
def sample_comment : Comment :=
  { id := 100, task := sample_task, author := sample_worker1 }

/-- Claim C1: a new comment by author A on task T with assignee set S
produces exactly one `commented` ActivityLog for A on T, and the
`task_commented` notifications go exactly to (S minus A) plus the task
creator when the creator is set, differs from A and is not in S; each
such worker receives exactly one notification, and a notification
carries the special `your task` phrasing exactly when its recipient is
the creator outside S. -/
theorem comment_one_log_and_dedup_notifications (store : Store) (c : Comment)
    (hS : c.task.assignees.Nodup) :
    (comment_post_save store c true).activity_logs =
      store.activity_logs ++ [commented_log c] ∧
    (commented_log c).activity_type = "commented" ∧
    (commented_log c).user = some c.author.id ∧
    (commented_log c).task = some c.task.id ∧
    (∀ w, (((comment_post_save store c true).notifications.drop
          store.notifications.length).filter
        (fun n => n.recipient == w)).length =
      if (w ∈ c.task.assignees ∧ w ≠ c.author.id) ∨
          (c.task.created_by = some w ∧ w ≠ c.author.id ∧
            w ∉ c.task.assignees)
      then 1 else 0) ∧
    (∀ n ∈ (comment_post_save store c true).notifications.drop
        store.notifications.length,
      n.notification_type = "task_commented" ∧ n.task = some c.task.id ∧
      (n.message = (creator_notification c n.recipient).message ↔
        c.task.created_by = some n.recipient ∧
          n.recipient ∉ c.task.assignees)) := by
  obtain ⟨hlogs, hnotifs⟩ := comment_post_save_unfold store c
  have hnew : (comment_post_save store c true).notifications.drop
      store.notifications.length =
      (c.task.assignees.filter (fun pk => pk != c.author.id)).map
        (comment_notification c) ++ creator_extra c := by
    rw [hnotifs, List.append_assoc, List.drop_left]
  have hX : ∀ w : Nat,
      (((c.task.assignees.filter (fun pk => pk != c.author.id)).map
        (comment_notification c)).filter (fun n => n.recipient == w)).length =
      if w ∈ c.task.assignees ∧ w ≠ c.author.id then 1 else 0 := by
    intro w
    rw [List.filter_map, List.length_map, ← List.countP_eq_length_filter]
    have h1 : (c.task.assignees.filter (fun pk => pk != c.author.id)).countP
        ((fun n => n.recipient == w) ∘ comment_notification c)
        = (c.task.assignees.filter (fun pk => pk != c.author.id)).countP
          (fun pk => pk == w) := by
      apply List.countP_congr
      intro pk _
      simp [Function.comp, comment_notification]
    have h2 : (c.task.assignees.filter (fun pk => pk != c.author.id)).countP
        (fun pk => pk == w)
        = (c.task.assignees.filter (fun pk => pk != c.author.id)).count w := rfl
    rw [h1, h2]
    by_cases hw : w ∈ c.task.assignees ∧ w ≠ c.author.id
    · have hmem : w ∈ c.task.assignees.filter (fun pk => pk != c.author.id) := by
        rw [List.mem_filter]
        exact ⟨hw.1, by simp [hw.2]⟩
      simp [hw, List.count_eq_one_of_mem (hS.filter _) hmem]
    · have hmem : w ∉ c.task.assignees.filter (fun pk => pk != c.author.id) := by
        rw [List.mem_filter]
        rintro ⟨hm1, hm2⟩
        exact hw ⟨hm1, by simpa using hm2⟩
      simp [hw, List.count_eq_zero_of_not_mem hmem]
  refine ⟨hlogs, rfl, rfl, rfl, ?_, ?_⟩
  · intro w
    rw [hnew, List.filter_append, List.length_append, hX w]
    cases hcb : c.task.created_by with
    | none =>
      rw [creator_extra_none c hcb]
      simp
    | some creator =>
      by_cases hc : creator ≠ c.author.id ∧ creator ∉ c.task.assignees
      · rw [creator_extra_pos c creator hcb hc]
        by_cases hw : creator = w
        · subst hw
          simp [List.filter, creator_notification, hc.1, hc.2]
        · have hbw : (creator == w) = false := by simp [hw]
          simp [List.filter, creator_notification, hbw, hw]
      · rw [creator_extra_neg c creator hcb hc]
        rcases not_and_or.mp hc with h | h
        · have h' : creator = c.author.id := not_not.mp h
          by_cases hw : creator = w
          · subst hw
            simp [h']
          · simp [hw]
        · have h' : creator ∈ c.task.assignees := not_not.mp h
          by_cases hw : creator = w
          · subst hw
            simp [h']
          · simp [hw]
  · intro n hn
    rw [hnew] at hn
    rcases List.mem_append.mp hn with hX' | hY'
    · obtain ⟨pk, hpk, rfl⟩ := List.mem_map.mp hX'
      have hpkS : pk ∈ c.task.assignees := (List.mem_filter.mp hpk).1
      refine ⟨rfl, rfl, ?_, ?_⟩
      · intro hmsg
        exact absurd hmsg (comment_messages_distinct c pk _)
      · rintro ⟨hcb', hnot⟩
        exact absurd hpkS hnot
    · cases hcb : c.task.created_by with
      | none =>
        rw [creator_extra_none c hcb] at hY'
        simp at hY'
      | some creator =>
        by_cases hc : creator ≠ c.author.id ∧ creator ∉ c.task.assignees
        · rw [creator_extra_pos c creator hcb hc] at hY'
          have hn' : n = creator_notification c creator := by
            simpa using hY'
          subst hn'
          refine ⟨rfl, rfl, ?_, ?_⟩
          · intro _
            exact ⟨rfl, hc.2⟩
          · intro _
            rfl
        · rw [creator_extra_neg c creator hcb hc] at hY'
          simp at hY'

/-- Witness for C1: a comment by assignee worker 1 on the sample task
(creator worker 2, not an assignee) yields one `commented` log, no
notification to the author, and exactly one `your task` notification to
the creator. -/
theorem comment_one_log_and_dedup_notifications_witness :
    (comment_post_save sample_store sample_comment true).activity_logs =
      sample_store.activity_logs ++ [commented_log sample_comment] ∧
    (commented_log sample_comment).activity_type = "commented" ∧
    (commented_log sample_comment).user = some sample_comment.author.id ∧
    (commented_log sample_comment).task = some sample_comment.task.id ∧
    (∀ w, (((comment_post_save sample_store sample_comment true).notifications.drop
          sample_store.notifications.length).filter
        (fun n => n.recipient == w)).length =
      if (w ∈ sample_comment.task.assignees ∧ w ≠ sample_comment.author.id) ∨
          (sample_comment.task.created_by = some w ∧
            w ≠ sample_comment.author.id ∧
            w ∉ sample_comment.task.assignees)
      then 1 else 0) ∧
    (∀ n ∈ (comment_post_save sample_store sample_comment true).notifications.drop
        sample_store.notifications.length,
      n.notification_type = "task_commented" ∧
      n.task = some sample_comment.task.id ∧
      (n.message = (creator_notification sample_comment n.recipient).message ↔
        sample_comment.task.created_by = some n.recipient ∧
          n.recipient ∉ sample_comment.task.assignees)) := by
  exact comment_one_log_and_dedup_notifications sample_store sample_comment
    (by decide)

end TM
